import Mathlib

/-!
# DIALS: reflection record and the GLM background binding

A shallow embedding of

* `model/data/reflection.h`: the `ReflectionBase` / `Reflection` record, its
  constructors, getters and setters;
* `algorithms/background/glm/boost_python/ext.cc`: the exposed constructor
  signatures of `RobustPoissonMean` and `Creator` and the `Creator::Model`
  value table;
* the robust Poisson mean estimator and the `Creator` constructor, whose
  headers (`robust_poisson_mean.h`, `creator.h`) are not part of the sources
  at hand and are modelled from the written specification.

C++ `double` values are only stored and copied by the reflection record, so
the record is generic in the carrier `F` of `double`.  `int` is `Int`,
`std::size_t` is `Nat`.
-/

namespace dials.model

/-! ## scitbx / cctbx value types used by the record -/

/-- The `scitbx::vec2` value: two components. -/
structure vec2 (F : Type) where
  x : F
  y : F
deriving DecidableEq, Repr

/-- The `scitbx::vec3` value: three components. -/
structure vec3 (F : Type) where
  x : F
  y : F
  z : F
deriving DecidableEq, Repr

/-- The `scitbx::af::int6` value: six integers. -/
structure int6 where
  e0 : Int
  e1 : Int
  e2 : Int
  e3 : Int
  e4 : Int
  e5 : Int
deriving DecidableEq, Repr

/-- The `cctbx::miller::index<>` value (`miller_index_type`): three integers. -/
structure miller_index_type where
  h : Int
  k : Int
  l : Int
deriving DecidableEq, Repr

/-- The `is_zero` member of the miller index, a cctbx library function the
record delegates to; as the comment on `ReflectionBase::is_zero` puts it,
"True/False the miller index is (0, 0, 0)": no component is non-zero. -/
def miller_index_type.is_zero (m : miller_index_type) : Bool :=
  !(m.h != 0 || m.k != 0 || m.l != 0)

/-- The `flex_int` array, by value. -/
abbrev flex_int := List Int

/-- The `flex_double` array, by value. -/
abbrev flex_double (F : Type) := List F

/-! ## ReflectionBase -/

/-- The class `ReflectionBase`: one protected member. -/
structure ReflectionBase where
  miller_index_ : miller_index_type
deriving DecidableEq, Repr

/-- The constructor `ReflectionBase()`. -/
def ReflectionBase.new : ReflectionBase :=
  { miller_index_ := ⟨0, 0, 0⟩ }

/-- The constructor `ReflectionBase(miller_index)`. -/
def ReflectionBase.of_miller_index (miller_index : miller_index_type) : ReflectionBase :=
  { miller_index_ := miller_index }

/-! ## Reflection -/

/-- The class `Reflection : public ReflectionBase` with its data members in
declaration order. -/
structure Reflection (F : Type) extends ReflectionBase where
  rotation_angle_ : F
  beam_vector_ : vec3 F
  image_coord_px_ : vec2 F
  image_coord_mm_ : vec2 F
  frame_number_ : F
  panel_number_ : Int
  bounding_box_ : int6
  shoebox_ : flex_int
  shoebox_mask_ : flex_int
  transformed_shoebox_ : flex_double F
  centroid_position_ : vec3 F
  centroid_variance_ : vec3 F
  centroid_sq_width_ : vec3 F

namespace Reflection

variable {F : Type}

/-- The constructor `Reflection()`: the arrays are default constructed (empty). -/
def new [Zero F] : Reflection F :=
  { toReflectionBase := ReflectionBase.new
    rotation_angle_ := 0
    beam_vector_ := ⟨0, 0, 0⟩
    image_coord_px_ := ⟨0, 0⟩
    image_coord_mm_ := ⟨0, 0⟩
    frame_number_ := 0
    panel_number_ := 0
    bounding_box_ := ⟨0, 0, 0, 0, 0, 0⟩
    shoebox_ := []
    shoebox_mask_ := []
    transformed_shoebox_ := []
    centroid_position_ := ⟨0, 0, 0⟩
    centroid_variance_ := ⟨0, 0, 0⟩
    centroid_sq_width_ := ⟨0, 0, 0⟩ }

/-- The constructor `Reflection(miller_index)`. -/
def of_miller_index [Zero F] (miller_index : miller_index_type) : Reflection F :=
  { toReflectionBase := ReflectionBase.of_miller_index miller_index
    rotation_angle_ := 0
    beam_vector_ := ⟨0, 0, 0⟩
    image_coord_px_ := ⟨0, 0⟩
    image_coord_mm_ := ⟨0, 0⟩
    frame_number_ := 0
    panel_number_ := 0
    bounding_box_ := ⟨0, 0, 0, 0, 0, 0⟩
    shoebox_ := []
    shoebox_mask_ := []
    transformed_shoebox_ := []
    centroid_position_ := ⟨0, 0, 0⟩
    centroid_variance_ := ⟨0, 0, 0⟩
    centroid_sq_width_ := ⟨0, 0, 0⟩ }

/-- The constructor `Reflection(miller_index, rotation_angle, beam_vector)`. -/
def of_miller_index_angle_beam [Zero F] (miller_index : miller_index_type)
    (rotation_angle : F) (beam_vector : vec3 F) : Reflection F :=
  { toReflectionBase := ReflectionBase.of_miller_index miller_index
    rotation_angle_ := rotation_angle
    beam_vector_ := beam_vector
    image_coord_px_ := ⟨0, 0⟩
    image_coord_mm_ := ⟨0, 0⟩
    frame_number_ := 0
    panel_number_ := 0
    bounding_box_ := ⟨0, 0, 0, 0, 0, 0⟩
    shoebox_ := []
    shoebox_mask_ := []
    transformed_shoebox_ := []
    centroid_position_ := ⟨0, 0, 0⟩
    centroid_variance_ := ⟨0, 0, 0⟩
    centroid_sq_width_ := ⟨0, 0, 0⟩ }

/-! ### Getters -/

/-- Get the miller index (inherited from `ReflectionBase`). -/
def get_miller_index (r : Reflection F) : miller_index_type := r.miller_index_

/-- True/False the miller index is (0, 0, 0) (inherited from `ReflectionBase`). -/
def is_zero (r : Reflection F) : Bool := r.miller_index_.is_zero

/-- Get the rotation angle. -/
def get_rotation_angle (r : Reflection F) : F := r.rotation_angle_

/-- Get the beam vector. -/
def get_beam_vector (r : Reflection F) : vec3 F := r.beam_vector_

/-- Get the image coordinate in mm. -/
def get_image_coord_mm (r : Reflection F) : vec2 F := r.image_coord_mm_

/-- Get the image coordinate in pixels. -/
def get_image_coord_px (r : Reflection F) : vec2 F := r.image_coord_px_

/-- Get the frame number. -/
def get_frame_number (r : Reflection F) : F := r.frame_number_

/-- Get the panel number. -/
def get_panel_number (r : Reflection F) : Int := r.panel_number_

/-- Get the bounding box. -/
def get_bounding_box (r : Reflection F) : int6 := r.bounding_box_

/-- Get the reflection shoebox pixels. -/
def get_shoebox (r : Reflection F) : flex_int := r.shoebox_

/-- Get the reflection shoebox mask. -/
def get_shoebox_mask (r : Reflection F) : flex_int := r.shoebox_mask_

/-- Get the transformed profile. -/
def get_transformed_shoebox (r : Reflection F) : flex_double F := r.transformed_shoebox_

/-- Get the reflection centroid position. -/
def get_centroid_position (r : Reflection F) : vec3 F := r.centroid_position_

/-- Get the reflection centroid variance. -/
def get_centroid_variance (r : Reflection F) : vec3 F := r.centroid_variance_

/-- Get the centroid spot width variance. -/
def get_centroid_sq_width (r : Reflection F) : vec3 F := r.centroid_sq_width_

/-! ### Setters -/

/-- Set the miller index (inherited from `ReflectionBase`). -/
def set_miller_index (r : Reflection F) (miller_index : miller_index_type) : Reflection F :=
  { r with miller_index_ := miller_index }

/-- Set the rotation angle. -/
def set_rotation_angle (r : Reflection F) (rotation_angle : F) : Reflection F :=
  { r with rotation_angle_ := rotation_angle }

/-- Set the beam vector. -/
def set_beam_vector (r : Reflection F) (beam_vector : vec3 F) : Reflection F :=
  { r with beam_vector_ := beam_vector }

/-- Set the image coordinate in mm. -/
def set_image_coord_mm (r : Reflection F) (image_coord_mm : vec2 F) : Reflection F :=
  { r with image_coord_mm_ := image_coord_mm }

/-- Set the image coordinate in pixels. -/
def set_image_coord_px (r : Reflection F) (image_coord_px : vec2 F) : Reflection F :=
  { r with image_coord_px_ := image_coord_px }

/-- Set the frame number. -/
def set_frame_number (r : Reflection F) (frame_number : F) : Reflection F :=
  { r with frame_number_ := frame_number }

/-- Set the panel number. -/
def set_panel_number (r : Reflection F) (panel_number : Int) : Reflection F :=
  { r with panel_number_ := panel_number }

/-- Set the bounding box. -/
def set_bounding_box (r : Reflection F) (bounding_box : int6) : Reflection F :=
  { r with bounding_box_ := bounding_box }

/-- Set the reflection shoebox pixels. -/
def set_shoebox (r : Reflection F) (shoebox : flex_int) : Reflection F :=
  { r with shoebox_ := shoebox }

/-- Set the reflection shoebox mask. -/
def set_shoebox_mask (r : Reflection F) (shoebox_mask : flex_int) : Reflection F :=
  { r with shoebox_mask_ := shoebox_mask }

/-- Set the transformed profile. -/
def set_transformed_shoebox (r : Reflection F) (transformed_shoebox : flex_double F) :
    Reflection F :=
  { r with transformed_shoebox_ := transformed_shoebox }

/-- Set the reflection centroid position. -/
def set_centroid_position (r : Reflection F) (centroid_position : vec3 F) : Reflection F :=
  { r with centroid_position_ := centroid_position }

/-- Set the reflection centroid variance. -/
def set_centroid_variance (r : Reflection F) (centroid_variance : vec3 F) : Reflection F :=
  { r with centroid_variance_ := centroid_variance }

/-- Set the centroid spot width variance; the source names the parameter
`centroid_variance` and assigns it to `centroid_sq_width_`. -/
def set_centroid_sq_width (r : Reflection F) (centroid_variance : vec3 F) : Reflection F :=
  { r with centroid_sq_width_ := centroid_variance }

end Reflection

/-! ### The fourteen stored fields, to quantify over "every setter" and
"every getter" -/

/-- One tag per setter / getter pair of `Reflection`. -/
inductive Field
  | miller_index
  | rotation_angle
  | beam_vector
  | image_coord_mm
  | image_coord_px
  | frame_number
  | panel_number
  | bounding_box
  | shoebox
  | shoebox_mask
  | transformed_shoebox
  | centroid_position
  | centroid_variance
  | centroid_sq_width
deriving DecidableEq, Repr

/-- The C++ type of the value a setter takes and its getter returns. -/
def Field.type (F : Type) : Field → Type
  | .miller_index => miller_index_type
  | .rotation_angle => F
  | .beam_vector => vec3 F
  | .image_coord_mm => vec2 F
  | .image_coord_px => vec2 F
  | .frame_number => F
  | .panel_number => Int
  | .bounding_box => int6
  | .shoebox => flex_int
  | .shoebox_mask => flex_int
  | .transformed_shoebox => flex_double F
  | .centroid_position => vec3 F
  | .centroid_variance => vec3 F
  | .centroid_sq_width => vec3 F

/-- The getter `get_X` selected by its tag. -/
def Reflection.get {F : Type} (r : Reflection F) : (f : Field) → f.type F
  | .miller_index => r.get_miller_index
  | .rotation_angle => r.get_rotation_angle
  | .beam_vector => r.get_beam_vector
  | .image_coord_mm => r.get_image_coord_mm
  | .image_coord_px => r.get_image_coord_px
  | .frame_number => r.get_frame_number
  | .panel_number => r.get_panel_number
  | .bounding_box => r.get_bounding_box
  | .shoebox => r.get_shoebox
  | .shoebox_mask => r.get_shoebox_mask
  | .transformed_shoebox => r.get_transformed_shoebox
  | .centroid_position => r.get_centroid_position
  | .centroid_variance => r.get_centroid_variance
  | .centroid_sq_width => r.get_centroid_sq_width

/-- The setter `set_X` selected by its tag. -/
def Reflection.set {F : Type} (r : Reflection F) : (f : Field) → f.type F → Reflection F
  | .miller_index, v => r.set_miller_index v
  | .rotation_angle, v => r.set_rotation_angle v
  | .beam_vector, v => r.set_beam_vector v
  | .image_coord_mm, v => r.set_image_coord_mm v
  | .image_coord_px, v => r.set_image_coord_px v
  | .frame_number, v => r.set_frame_number v
  | .panel_number, v => r.set_panel_number v
  | .bounding_box, v => r.set_bounding_box v
  | .shoebox, v => r.set_shoebox v
  | .shoebox_mask, v => r.set_shoebox_mask v
  | .transformed_shoebox, v => r.set_transformed_shoebox v
  | .centroid_position, v => r.set_centroid_position v
  | .centroid_variance, v => r.set_centroid_variance v
  | .centroid_sq_width, v => r.set_centroid_sq_width v

end dials.model

namespace dials.algorithms.background

/-! ## RobustPoissonMean: the estimator behind the binding

The estimator works on C++ `double` values. Their arithmetic rounds, so the
carrier `F` of `double` and every operation on it are parameters of the
embedding: nothing below assumes that sums are exact, associative or
independent of the order of the sample. -/

/-- The state read by the exposed members `mean`, `niter`, `error` and
`converged` of `RobustPoissonMean`, over the carrier `F` of `double`. -/
structure RobustPoissonMean (F : Type) where
  mean_ : F
  niter_ : Nat
  error_ : F
  converged_ : Bool
deriving DecidableEq, Repr

namespace RobustPoissonMean

variable {F : Type}

/-- The member `mean()`. -/
def mean (s : RobustPoissonMean F) : F := s.mean_

/-- The member `niter()`. -/
def niter (s : RobustPoissonMean F) : Nat := s.niter_

/-- The member `error()`. -/
def error (s : RobustPoissonMean F) : F := s.error_

/-- The member `converged()`. -/
def converged (s : RobustPoissonMean F) : Bool := s.converged_

end RobustPoissonMean

/-- Modelled from the spec: the arithmetic of `double` and the numeric forms
that `robust_poisson_mean.h` (absent) fixes and the specification leaves open.
`zero`, `one`, `add`, `mul`, `div`, `abs`, `le` and `lt` are the operations of
the carrier, with whatever rounding and special values it has;
`residual y mean` is the standardized residual of observation `y` against the
current estimate, `relative_change previous current` the relative change of
the estimate, and `error0` the relative error reported before any iteration
has run. -/
structure Numerics (F : Type) where
  zero : F
  one : F
  add : F → F → F
  mul : F → F → F
  div : F → F → F
  abs : F → F
  le : F → F → Bool
  lt : F → F → Bool
  residual : F → F → F
  relative_change : F → F → F
  error0 : F

/-- Modelled from the spec: step 2 of the estimator in
`robust_poisson_mean.h` (absent), the Huber weight: 1 within the threshold `c`,
`c / |residual|` outside it. -/
def huber_weight {F : Type} (N : Numerics F) (c r : F) : F :=
  if N.le (N.abs r) c then N.one else N.div c (N.abs r)

/-- Modelled from the spec: steps 1 to 3 of the estimator in
`robust_poisson_mean.h` (absent): residual and weight of every observation
against the current estimate, then the weighted average of the observations,
the two sums accumulated in sample order with the carrier's addition. -/
def weighted_mean {F : Type} (N : Numerics F) (c : F) (Y : List F) (mean : F) : F :=
  N.div
    (Y.foldl (fun acc y => N.add acc (N.mul (huber_weight N c (N.residual y mean)) y)) N.zero)
    (Y.foldl (fun acc y => N.add acc (huber_weight N c (N.residual y mean))) N.zero)

/-- Modelled from the spec: the reweighting loop of `robust_poisson_mean.h`
(absent). The first argument is how many iterations are left before the
iteration counter reaches `max_iter`. Each pass recomputes the mean, takes the
relative change against the previous estimate, and either marks convergence
and stops, or increments the iteration counter and goes on. -/
def iterate {F : Type} (N : Numerics F) (c tolerance : F) (Y : List F) :
    Nat → RobustPoissonMean F → RobustPoissonMean F
  | 0, s => s
  | k + 1, s =>
    let m := weighted_mean N c Y s.mean_
    let e := N.relative_change s.mean_ m
    if N.lt e tolerance then
      { mean_ := m, niter_ := s.niter_, error_ := e, converged_ := true }
    else
      iterate N c tolerance Y k
        { mean_ := m, niter_ := s.niter_ + 1, error_ := e, converged_ := false }

/-- Modelled from the spec: the constructor
`RobustPoissonMean(Y, mean0, c, tolerance, max_iter)` of
`robust_poisson_mean.h` (absent). The state starts at the initial guess with
zero iterations and not converged; an empty sample gives that state back, any
other sample runs the loop until convergence or `max_iter`. -/
def RobustPoissonMean.init {F : Type} (N : Numerics F) (Y : List F) (mean0 c tolerance : F)
    (max_iter : Nat) : RobustPoissonMean F :=
  let s0 : RobustPoissonMean F :=
    { mean_ := mean0, niter_ := 0, error_ := N.error0, converged_ := false }
  if Y.isEmpty then s0 else iterate N c tolerance Y max_iter s0

/-- One instance of the carrier, for evaluating the constructor at a concrete
input: the rationals with their exact operations, the raw residual
`y - mean`, the relative change `|current - previous| / |previous|` and
initial error 0. It is not the arithmetic of `double`. -/
def sample_numerics : Numerics ℚ :=
  { zero := 0
    one := 1
    add := fun a b => a + b
    mul := fun a b => a * b
    div := fun a b => a / b
    abs := fun a => |a|
    le := fun a b => decide (a ≤ b)
    lt := fun a b => decide (a < b)
    residual := fun y mean => y - mean
    relative_change := fun previous current => |current - previous| / |previous|
    error0 := 0 }

/-! ## Creator -/

/-- Modelled from the spec: the enum `Creator::Model` of `creator.h` (absent),
the four-variant model family; the enumerator names are those used by
`ext.cc`. -/
inductive Creator.Model
  | Constant2d
  | Constant3d
  | LogLinear2d
  | LogLinear3d
deriving DecidableEq, Repr

/-- The configuration a constructed `Creator` holds. -/
structure Creator where
  model_ : Creator.Model
  tuning_constant_ : ℚ
  max_iter_ : Nat
deriving DecidableEq, Repr

/-- The failure of a construction. -/
inductive ConfigError
  | InvalidConfiguration
deriving DecidableEq, Repr

/-- Modelled from the spec: the constructor
`Creator(model, tuning_constant, max_iter)` of `creator.h` (absent). A model
outside the four families (`none`), a negative tuning constant, or a zero
`max_iter` is an invalid configuration and no object is produced. -/
def Creator.init (model : Option Creator.Model) (tuning_constant : ℚ) (max_iter : Nat) :
    Except ConfigError Creator :=
  match model with
  | none => .error .InvalidConfiguration
  | some m =>
    if tuning_constant < 0 then .error .InvalidConfiguration
    else if max_iter = 0 then .error .InvalidConfiguration
    else .ok { model_ := m, tuning_constant_ := tuning_constant, max_iter_ := max_iter }

namespace boost_python

/-! ## The exposed module `dials_algorithms_background_glm_ext` -/

/-- The arguments of a Python call of the exposed `RobustPoissonMean`
constructor: each of the five named arguments is passed or omitted. -/
structure RobustPoissonMean_args where
  Y : Option (List ℚ)
  mean0 : Option ℚ
  c : Option ℚ
  tolerance : Option ℚ
  max_iter : Option Nat

/-- The exposed constructor of `RobustPoissonMean` (ext.cc, the `init` block):
`Y` and `mean0` carry no default and must be passed, `c`, `tolerance` and
`max_iter` default to 1.345, 1e-3 and 100. The wrapped C++ constructor is the
parameter `ctor`; a call that cannot be resolved yields `none`. -/
def RobustPoissonMean_init {α : Type} (ctor : List ℚ → ℚ → ℚ → ℚ → Nat → α)
    (a : RobustPoissonMean_args) : Option α :=
  match a.Y, a.mean0 with
  | some Y, some mean0 =>
    some (ctor Y mean0 (a.c.getD 1.345) (a.tolerance.getD 1e-3) (a.max_iter.getD 100))
  | _, _ => none

/-- The value table of the exposed enum `Creator.model` (ext.cc, the `enum_`
block): exposed name and enumerator, in source order. -/
def model_values : List (String × Creator.Model) :=
  [("constant2d", Creator.Model.Constant2d),
   ("constant3d", Creator.Model.Constant3d),
   ("loglinear2d", Creator.Model.LogLinear2d),
   ("loglinear3d", Creator.Model.LogLinear3d)]

/-- The enumerator an exposed name stands for, if the name is exposed. -/
def model_of_name (name : String) : Option Creator.Model :=
  model_values.lookup name

/-- The exposed constructor of `Creator` (ext.cc, the `init` block of
`creator`): three required arguments `model`, `tuning_constant`, `max_iter`,
the model given by its exposed name. -/
def Creator_init (model : String) (tuning_constant : ℚ) (max_iter : Nat) :
    Except ConfigError Creator :=
  Creator.init (model_of_name model) tuning_constant max_iter

end boost_python

end dials.algorithms.background

/-! # Theorems -/

namespace dials.model

/-! ## Reflection -/

/-- C8: for every Reflection `r` and every value `v`, each of the fourteen
setters followed by its like-named getter returns `v`. -/
theorem Reflection_set_then_get {F : Type} (r : Reflection F) :
    (∀ v, (r.set_miller_index v).get_miller_index = v) ∧
    (∀ v, (r.set_rotation_angle v).get_rotation_angle = v) ∧
    (∀ v, (r.set_beam_vector v).get_beam_vector = v) ∧
    (∀ v, (r.set_image_coord_mm v).get_image_coord_mm = v) ∧
    (∀ v, (r.set_image_coord_px v).get_image_coord_px = v) ∧
    (∀ v, (r.set_frame_number v).get_frame_number = v) ∧
    (∀ v, (r.set_panel_number v).get_panel_number = v) ∧
    (∀ v, (r.set_bounding_box v).get_bounding_box = v) ∧
    (∀ v, (r.set_shoebox v).get_shoebox = v) ∧
    (∀ v, (r.set_shoebox_mask v).get_shoebox_mask = v) ∧
    (∀ v, (r.set_transformed_shoebox v).get_transformed_shoebox = v) ∧
    (∀ v, (r.set_centroid_position v).get_centroid_position = v) ∧
    (∀ v, (r.set_centroid_variance v).get_centroid_variance = v) ∧
    (∀ v, (r.set_centroid_sq_width v).get_centroid_sq_width = v) :=
  ⟨fun _ => rfl, fun _ => rfl, fun _ => rfl, fun _ => rfl, fun _ => rfl, fun _ => rfl,
   fun _ => rfl, fun _ => rfl, fun _ => rfl, fun _ => rfl, fun _ => rfl, fun _ => rfl,
   fun _ => rfl, fun _ => rfl⟩

/-- The miller index test is true exactly at (0, 0, 0). -/
theorem miller_index_is_zero_iff (m : miller_index_type) :
    m.is_zero = true ↔ m = ⟨0, 0, 0⟩ := by
  obtain ⟨h, k, l⟩ := m
  simp [miller_index_type.is_zero, and_assoc]

/-- C9: a default-constructed Reflection has miller index (0, 0, 0), reports
`is_zero`, and has zero rotation angle, beam vector, image coordinates (px and
mm), frame number, panel number, bounding box and centroid position, variance
and sq_width; a Reflection constructed from a miller index `h` reports
`is_zero` if and only if `h = (0, 0, 0)`, keeps `h`, and has the same zero
fields. -/
theorem Reflection_constructed_fields {F : Type} [Zero F] :
    ((Reflection.new : Reflection F).get_miller_index = ⟨0, 0, 0⟩ ∧
      (Reflection.new : Reflection F).is_zero = true ∧
      (Reflection.new : Reflection F).get_rotation_angle = 0 ∧
      (Reflection.new : Reflection F).get_beam_vector = ⟨0, 0, 0⟩ ∧
      (Reflection.new : Reflection F).get_image_coord_px = ⟨0, 0⟩ ∧
      (Reflection.new : Reflection F).get_image_coord_mm = ⟨0, 0⟩ ∧
      (Reflection.new : Reflection F).get_frame_number = 0 ∧
      (Reflection.new : Reflection F).get_panel_number = 0 ∧
      (Reflection.new : Reflection F).get_bounding_box = ⟨0, 0, 0, 0, 0, 0⟩ ∧
      (Reflection.new : Reflection F).get_centroid_position = ⟨0, 0, 0⟩ ∧
      (Reflection.new : Reflection F).get_centroid_variance = ⟨0, 0, 0⟩ ∧
      (Reflection.new : Reflection F).get_centroid_sq_width = ⟨0, 0, 0⟩) ∧
    ∀ h : miller_index_type,
      ((Reflection.of_miller_index h : Reflection F).is_zero = true ↔ h = ⟨0, 0, 0⟩) ∧
      (Reflection.of_miller_index h : Reflection F).get_miller_index = h ∧
      (Reflection.of_miller_index h : Reflection F).get_rotation_angle = 0 ∧
      (Reflection.of_miller_index h : Reflection F).get_beam_vector = ⟨0, 0, 0⟩ ∧
      (Reflection.of_miller_index h : Reflection F).get_image_coord_px = ⟨0, 0⟩ ∧
      (Reflection.of_miller_index h : Reflection F).get_image_coord_mm = ⟨0, 0⟩ ∧
      (Reflection.of_miller_index h : Reflection F).get_frame_number = 0 ∧
      (Reflection.of_miller_index h : Reflection F).get_panel_number = 0 ∧
      (Reflection.of_miller_index h : Reflection F).get_bounding_box = ⟨0, 0, 0, 0, 0, 0⟩ ∧
      (Reflection.of_miller_index h : Reflection F).get_centroid_position = ⟨0, 0, 0⟩ ∧
      (Reflection.of_miller_index h : Reflection F).get_centroid_variance = ⟨0, 0, 0⟩ ∧
      (Reflection.of_miller_index h : Reflection F).get_centroid_sq_width = ⟨0, 0, 0⟩ := by
  refine ⟨⟨rfl, ?_, rfl, rfl, rfl, rfl, rfl, rfl, rfl, rfl, rfl, rfl⟩, fun h =>
    ⟨?_, rfl, rfl, rfl, rfl, rfl, rfl, rfl, rfl, rfl, rfl, rfl⟩⟩
  · exact (miller_index_is_zero_iff _).2 rfl
  · exact miller_index_is_zero_iff h

/-- C10: every Reflection setter changes only its own field: after
`r.set_X(v)` every getter `get_Y` with `Y` different from `X` returns what it
returned before. In particular `set_centroid_sq_width` leaves
`get_centroid_variance` unchanged and conversely, `set_shoebox` leaves
`get_shoebox_mask` and `get_transformed_shoebox` unchanged, and
`set_image_coord_mm` leaves `get_image_coord_px` unchanged. -/
theorem Reflection_setter_frame {F : Type} (r : Reflection F) :
    (∀ (f g : Field) (v : f.type F), g ≠ f → (r.set f v).get g = r.get g) ∧
    (∀ v, (r.set_centroid_sq_width v).get_centroid_variance = r.get_centroid_variance) ∧
    (∀ v, (r.set_centroid_variance v).get_centroid_sq_width = r.get_centroid_sq_width) ∧
    (∀ v, (r.set_shoebox v).get_shoebox_mask = r.get_shoebox_mask) ∧
    (∀ v, (r.set_shoebox v).get_transformed_shoebox = r.get_transformed_shoebox) ∧
    (∀ v, (r.set_image_coord_mm v).get_image_coord_px = r.get_image_coord_px) := by
  refine ⟨?_, fun _ => rfl, fun _ => rfl, fun _ => rfl, fun _ => rfl, fun _ => rfl⟩
  intro f g v hne
  cases f <;> cases g <;> first | rfl | exact absurd rfl hne

/-- C10 at a concrete input: setting the shoebox of a fresh record leaves the
shoebox mask as it was. -/
theorem Reflection_setter_frame_witness :
    Field.shoebox_mask ≠ Field.shoebox ∧
    (((Reflection.new : Reflection ℚ).set Field.shoebox [1, 2]).get Field.shoebox_mask =
      (Reflection.new : Reflection ℚ).get Field.shoebox_mask) :=
  ⟨by decide,
   (Reflection_setter_frame (Reflection.new : Reflection ℚ)).1 Field.shoebox Field.shoebox_mask
     [1, 2] (by decide)⟩

end dials.model

namespace dials.algorithms.background

/-! ## The robust Poisson mean estimator -/

/-- C2: for every non-empty sample and every initial guess, the estimator
constructed with `max_iter = 0` finishes with `converged() = false` and
`mean()` equal to the initial guess. -/
theorem RobustPoissonMean_max_iter_zero {F : Type} (N : Numerics F) (Y : List F)
    (mean0 c tolerance : F) (hne : Y ≠ []) :
    (RobustPoissonMean.init N Y mean0 c tolerance 0).converged = false ∧
    (RobustPoissonMean.init N Y mean0 c tolerance 0).mean = mean0 := by
  cases Y with
  | nil => exact absurd rfl hne
  | cons y ys => exact ⟨rfl, rfl⟩

/-- C2 at a concrete input: the sample [3, 7] with initial guess 4. -/
theorem RobustPoissonMean_max_iter_zero_witness :
    ([3, 7] : List ℚ) ≠ [] ∧
    (RobustPoissonMean.init sample_numerics [3, 7] 4 1.345 0.001 0).converged = false ∧
    (RobustPoissonMean.init sample_numerics [3, 7] 4 1.345 0.001 0).mean = 4 :=
  ⟨by simp, RobustPoissonMean_max_iter_zero sample_numerics [3, 7] 4 1.345 0.001 (by simp)⟩

/-- C3: for the empty sample and every initial guess, tuning constant,
tolerance and `max_iter`, the estimator finishes with `mean()` equal to the
initial guess, `converged() = false` and `niter() = 0`. -/
theorem RobustPoissonMean_empty_sample {F : Type} (N : Numerics F) (mean0 c tolerance : F)
    (max_iter : Nat) :
    (RobustPoissonMean.init N [] mean0 c tolerance max_iter).mean = mean0 ∧
    (RobustPoissonMean.init N [] mean0 c tolerance max_iter).converged = false ∧
    (RobustPoissonMean.init N [] mean0 c tolerance max_iter).niter = 0 :=
  ⟨rfl, rfl, rfl⟩

namespace boost_python

/-! ## The exposed signatures -/

/-- C6: the exposed `RobustPoissonMean` constructor requires `Y` and `mean0`
and, when the other arguments are omitted, calls the wrapped constructor with
exactly `c = 1.345`, `tolerance = 0.001` and `max_iter = 100`:
`RobustPoissonMean(Y, mean0)` is the same call as
`RobustPoissonMean(Y, mean0, 1.345, 0.001, 100)`. -/
theorem RobustPoissonMean_init_defaults {α : Type} (ctor : List ℚ → ℚ → ℚ → ℚ → Nat → α) :
    (∀ (Y : List ℚ) (mean0 : ℚ),
      RobustPoissonMean_init ctor ⟨some Y, some mean0, none, none, none⟩ =
        some (ctor Y mean0 (1345 / 1000) (1 / 1000) 100) ∧
      RobustPoissonMean_init ctor ⟨some Y, some mean0, none, none, none⟩ =
        RobustPoissonMean_init ctor
          ⟨some Y, some mean0, some (1345 / 1000), some (1 / 1000), some 100⟩) ∧
    (∀ mean0 c tolerance max_iter,
      RobustPoissonMean_init ctor ⟨none, mean0, c, tolerance, max_iter⟩ = none) ∧
    (∀ Y c tolerance max_iter,
      RobustPoissonMean_init ctor ⟨Y, none, c, tolerance, max_iter⟩ = none) := by
  refine ⟨fun Y mean0 => ?_, fun _ _ _ _ => rfl, fun Y _ _ _ => ?_⟩
  · have h1 : (1.345 : ℚ) = 1345 / 1000 := by norm_num
    have h2 : (1e-3 : ℚ) = 1 / 1000 := by norm_num
    simp [RobustPoissonMean_init, h1, h2]
  · cases Y <;> rfl

/-- The exposed names are exactly the four in the value table. -/
theorem model_of_name_eq_none (name : String)
    (h : name ∉ ["constant2d", "constant3d", "loglinear2d", "loglinear3d"]) :
    model_of_name name = none := by
  simp only [List.mem_cons, List.mem_singleton, List.not_mem_nil, or_false, not_or] at h
  obtain ⟨h1, h2, h3, h4⟩ := h
  have b1 : (name == "constant2d") = false := by simpa using h1
  have b2 : (name == "constant3d") = false := by simpa using h2
  have b3 : (name == "loglinear2d") = false := by simpa using h3
  have b4 : (name == "loglinear3d") = false := by simpa using h4
  simp only [model_of_name, model_values, List.lookup, b1, b2, b3, b4]

/-- C7: the model family has exactly four variants, `Constant2d`,
`Constant3d`, `LogLinear2d`, `LogLinear3d`, pairwise distinct; the value table
exposes four pairwise distinct names, each mapped to its like-named
enumerator, and no other name is exposed. -/
theorem model_values_exact :
    (∀ m : Creator.Model, m ∈ [Creator.Model.Constant2d, Creator.Model.Constant3d,
      Creator.Model.LogLinear2d, Creator.Model.LogLinear3d]) ∧
    [Creator.Model.Constant2d, Creator.Model.Constant3d,
      Creator.Model.LogLinear2d, Creator.Model.LogLinear3d].Nodup ∧
    model_values.length = 4 ∧
    model_values.map Prod.fst = ["constant2d", "constant3d", "loglinear2d", "loglinear3d"] ∧
    (model_values.map Prod.fst).Nodup ∧
    model_of_name "constant2d" = some Creator.Model.Constant2d ∧
    model_of_name "constant3d" = some Creator.Model.Constant3d ∧
    model_of_name "loglinear2d" = some Creator.Model.LogLinear2d ∧
    model_of_name "loglinear3d" = some Creator.Model.LogLinear3d ∧
    (∀ name, name ∉ ["constant2d", "constant3d", "loglinear2d", "loglinear3d"] →
      model_of_name name = none) := by
  refine ⟨fun m => ?_, by decide, rfl, rfl, by decide, by decide, by decide, by decide,
    by decide, model_of_name_eq_none⟩
  cases m <;> decide

/-- C7 at a concrete input: a name outside the table resolves to no
enumerator. -/
theorem model_values_exact_witness :
    "constant4d" ∉ ["constant2d", "constant3d", "loglinear2d", "loglinear3d"] ∧
    model_of_name "constant4d" = none :=
  ⟨by decide, model_values_exact.2.2.2.2.2.2.2.2.2 "constant4d" (by decide)⟩

/-- C5: constructing a Creator with a negative tuning constant, or with
`max_iter = 0`, or with a model that is not one of the four recognised
families, fails at construction time whatever the other arguments are: no
Creator object is produced. -/
theorem Creator_init_rejects (model : String) (tuning_constant : ℚ) (max_iter : Nat)
    (h : tuning_constant < 0 ∨ max_iter = 0 ∨
      model ∉ ["constant2d", "constant3d", "loglinear2d", "loglinear3d"]) :
    Creator_init model tuning_constant max_iter = Except.error ConfigError.InvalidConfiguration ∧
    ∀ creator, Creator_init model tuning_constant max_iter ≠ Except.ok creator := by
  have key : Creator_init model tuning_constant max_iter =
      Except.error ConfigError.InvalidConfiguration := by
    unfold Creator_init Creator.init
    rcases h with h | h | h
    · cases model_of_name model <;> simp [h]
    · cases model_of_name model <;> simp [h]
    · rw [model_of_name_eq_none model h]
  refine ⟨key, fun creator hok => ?_⟩
  rw [key] at hok
  cases hok

/-- C5 at a concrete input: a recognised model, a negative tuning constant. -/
theorem Creator_init_rejects_witness :
    ((-1 : ℚ) < 0 ∨ 100 = 0 ∨
      "constant2d" ∉ ["constant2d", "constant3d", "loglinear2d", "loglinear3d"]) ∧
    Creator_init "constant2d" (-1) 100 = Except.error ConfigError.InvalidConfiguration :=
  ⟨Or.inl (by norm_num), (Creator_init_rejects "constant2d" (-1) 100 (Or.inl (by norm_num))).1⟩

/-- A well-formed configuration is accepted: the constructor is not one that
always fails. -/
theorem Creator_init_accepts (tuning_constant : ℚ) (max_iter : Nat)
    (htc : 0 ≤ tuning_constant) (hmi : 0 < max_iter) :
    Creator_init "loglinear3d" tuning_constant max_iter =
      Except.ok ⟨Creator.Model.LogLinear3d, tuning_constant, max_iter⟩ := by
  have hm : model_of_name "loglinear3d" = some Creator.Model.LogLinear3d := by decide
  simp [Creator_init, Creator.init, hm, not_lt.2 htc, Nat.pos_iff_ne_zero.1 hmi]

end boost_python

end dials.algorithms.background
